import Mathlib

/-!
Shallow embedding of the MaxAim repository (src/main.cpp, src/triangle.cpp).

The program is a linear sequence of GLFW / OpenGL API calls.  We model an
execution as the list of calls it issues (`Event`), parameterised by the
outcomes the environment can choose: whether `glfwInit`, `glfwCreateWindow`
and `glewInit` succeed (`World`), and whether the driver accepts each shader
compilation and the program link, together with the driver's info logs
(`DriverEnv`).  GPU object handles are fresh unspecified ids; we model the
allocator as a counter, so the ids are consecutive in allocation order.
-/

namespace MaxAim

/-- Output streams of the process (`std::cout` / `std::cerr`). -/
inductive OutStream where
  | stdout
  | stderr
deriving DecidableEq, Repr

/-- Shader stage kinds passed to `glCreateShader`. -/
inductive ShaderKind where
  | vertex
  | fragment
deriving DecidableEq, Repr

/-- Primitive modes passed to `glDrawArrays` (only `GL_TRIANGLES` occurs). -/
inductive DrawMode where
  | triangles
deriving DecidableEq, Repr

/-- The numeric value of the `GL_ARRAY_BUFFER` target. -/
def GL_ARRAY_BUFFER : Nat := 34962

/-- The numeric value of the `GL_FLOAT` component type. -/
def GL_FLOAT : Nat := 5126

/-- `sizeof(float)` on the target platform. -/
def floatSize : Nat := 4

/-- One observable API call of the program.  Payloads record the arguments
the C++ code passes (handles, buffer contents, draw parameters, printed
diagnostic text with its stream). -/
inductive Event where
  | glfwInitCall (ok : Bool)
  | glfwCreateWindow (width height : Nat) (title : String) (ok : Bool)
  | glfwMakeContextCurrent
  | glewInitCall (ok : Bool)
  | genBuffers (handle : Nat)
  | bindBuffer (target handle : Nat)
  | bufferData (target : Nat) (data : List Rat)
  | createShader (kind : ShaderKind) (handle : Nat)
  | shaderSource (handle : Nat) (src : String)
  | compileShader (handle : Nat)
  | printDiag (stream : OutStream) (text : String)
  | createProgram (handle : Nat)
  | attachShader (program shader : Nat)
  | linkProgram (program : Nat)
  | useProgram (program : Nat)
  | deleteShader (handle : Nat)
  | vertexAttribPointer (index size typ : Nat) (normalized : Bool) (stride offset : Nat)
  | enableVertexAttribArray (index : Nat)
  | genVertexArrays (handle : Nat)
  | bindVertexArray (handle : Nat)
  | drawArrays (mode : DrawMode) (first count : Nat)
  | glfwSwapBuffers
  | glfwPollEvents
  | glfwTerminate
deriving DecidableEq, Repr

/-- `triangle.cpp`: the vertex shader source literal (the C literal carries a
redundant explicit terminator; the string passed to the driver ends at it). -/
def vertexShaderSource : String :=
  "#version 330 core\n" ++
  "layout (location = 0) in vec3 aPos;\n" ++
  "void main()\n" ++
  "\x7b\n" ++
  "    gl_Position = vec4(aPos.x, aPos.y, aPos.z, 1.0);\n" ++
  "\x7d"

/-- `triangle.cpp`: the fragment shader source literal. -/
def fragmentShaderSource : String :=
  "#version 330 core\n" ++
  "out vec4 FragColor;\n" ++
  "void main()\n" ++
  "\x7b\n" ++
  "    FragColor = vec4(1.0f, 0.5f, 0.2f, 1.0f);\n" ++
  "\x7d"

/-- `triangle.cpp`, `renderTriangleSetup`: the `vertices` array (9 floats,
all exactly representable, so rationals model them exactly). -/
def vertices : List Rat :=
  [-0.5, -0.5, 0.0,
    0.5, -0.5, 0.0,
    0.0,  0.5, 0.0]

/-- Outcomes chosen by the GL driver during `renderTriangleSetup`: the three
success flags read back by `glGetShaderiv` / `glGetProgramiv`, and the three
info logs the driver holds for the two shaders and the program. -/
structure DriverEnv where
  vertexCompileOk : Bool
  fragmentCompileOk : Bool
  linkOk : Bool
  vertexLog : String
  fragmentLog : String
  programLog : String

/-- Model of the `glGetShaderInfoLog` / `glGetProgramInfoLog` contract: with
buffer size `bufSize` the driver writes at most `bufSize` bytes into the
caller's buffer — the returned string, truncated to at most `bufSize - 1`
characters, plus a null terminator. -/
def getInfoLog (bufSize : Nat) (log : String) : String :=
  ⟨log.data.take (bufSize - 1)⟩

/-- Number of bytes `getInfoLog` writes into the caller's buffer (the
returned characters plus the null terminator). -/
def bytesWritten (bufSize : Nat) (log : String) : Nat :=
  (getInfoLog bufSize log).data.length + 1

/-- Diagnostic text printed on a vertex-shader compile failure:
header literal, then the captured info log, then the `std::endl` newline. -/
def vertexDiag (log : String) : String :=
  "ERROR::SHADER::VERTEX::COMPILATION_FAILED\n" ++ getInfoLog 512 log ++ "\n"

/-- Diagnostic text printed on a fragment-shader compile failure. -/
def fragmentDiag (log : String) : String :=
  "ERROR::SHADER::FRAGMENT::COMPILATION_FAILED\n" ++ getInfoLog 512 log ++ "\n"

/-- Diagnostic text printed on a program link failure. -/
def programDiag (log : String) : String :=
  "ERROR::SHADER::PROGRAM::LINKING_FAILED\n" ++ getInfoLog 512 log ++ "\n"

/-- Handle id allocated by `glGenBuffers` for `VBO`. -/
def vboId : Nat := 1
/-- Handle id returned by `glCreateShader(GL_VERTEX_SHADER)`. -/
def vertexShaderId : Nat := 2
/-- Handle id returned by `glCreateShader(GL_FRAGMENT_SHADER)`. -/
def fragmentShaderId : Nat := 3
/-- Handle id returned by `glCreateProgram()`, stored in the global
`shaderProgram`. -/
def programId : Nat := 4
/-- Handle id allocated by `glGenVertexArrays`, stored in the global `VAO`. -/
def vaoId : Nat := 5

/-- The globals of `triangle.cpp`: `unsigned int shaderProgram; unsigned int
VAO;`. -/
structure Globals where
  shaderProgram : Nat
  VAO : Nat
deriving DecidableEq, Repr

/-- C++ zero-initialisation of the globals before `renderTriangleSetup`
runs. -/
def initGlobals : Globals := ⟨0, 0⟩

/-- `triangle.cpp` lines 62-107: buffer setup, vertex shader compile, and
the conditional vertex compile diagnostic. -/
def setupVertexPart (e : DriverEnv) : List Event :=
  [Event.genBuffers vboId,
   Event.bindBuffer GL_ARRAY_BUFFER vboId,
   Event.bufferData GL_ARRAY_BUFFER vertices,
   Event.createShader ShaderKind.vertex vertexShaderId,
   Event.shaderSource vertexShaderId vertexShaderSource,
   Event.compileShader vertexShaderId] ++
  (if e.vertexCompileOk then []
   else [Event.printDiag OutStream.stdout (vertexDiag e.vertexLog)])

/-- `triangle.cpp` lines 117-129: fragment shader compile and its
conditional diagnostic. -/
def setupFragmentPart (e : DriverEnv) : List Event :=
  [Event.createShader ShaderKind.fragment fragmentShaderId,
   Event.shaderSource fragmentShaderId fragmentShaderSource,
   Event.compileShader fragmentShaderId] ++
  (if e.fragmentCompileOk then []
   else [Event.printDiag OutStream.stdout (fragmentDiag e.fragmentLog)])

/-- `triangle.cpp` lines 143-158: program creation, attach, link, and the
conditional link diagnostic. -/
def setupLinkPart (e : DriverEnv) : List Event :=
  [Event.createProgram programId,
   Event.attachShader programId vertexShaderId,
   Event.attachShader programId fragmentShaderId,
   Event.linkProgram programId] ++
  (if e.linkOk then []
   else [Event.printDiag OutStream.stdout (programDiag e.programLog)])

/-- `triangle.cpp` lines 163-217: the unconditional tail of the setup —
activate the program, delete both shader stages, and establish the vertex
attribute binding / VAO. -/
def setupTailPart : List Event :=
  [Event.useProgram programId,
   Event.deleteShader vertexShaderId,
   Event.deleteShader fragmentShaderId,
   Event.vertexAttribPointer 0 3 GL_FLOAT false (3 * floatSize) 0,
   Event.enableVertexAttribArray 0,
   Event.genVertexArrays vaoId,
   Event.bindVertexArray vaoId,
   Event.bindBuffer GL_ARRAY_BUFFER vboId,
   Event.bufferData GL_ARRAY_BUFFER vertices,
   Event.vertexAttribPointer 0 3 GL_FLOAT false (3 * floatSize) 0,
   Event.enableVertexAttribArray 0,
   Event.bindBuffer GL_ARRAY_BUFFER 0,
   Event.bindVertexArray 0]

/-- `triangle.cpp`, `renderTriangleSetup`: the full call trace under driver
outcomes `e`, and the globals it leaves behind. -/
def renderTriangleSetup (e : DriverEnv) : List Event × Globals :=
  (setupVertexPart e ++ setupFragmentPart e ++ setupLinkPart e ++ setupTailPart,
   ⟨programId, vaoId⟩)

/-- `triangle.cpp`, `renderTriangle`: activate the program, bind the VAO,
and issue the one draw call. -/
def renderTriangle (g : Globals) : List Event :=
  [Event.useProgram g.shaderProgram,
   Event.bindVertexArray g.VAO,
   Event.drawArrays DrawMode.triangles 0 3]

/-- Outcomes chosen by the environment for `main`: the three setup results
and how many frame-loop iterations run before `glfwWindowShouldClose`
observes the external close signal. -/
structure World where
  glfwInitOk : Bool
  windowOk : Bool
  glewOk : Bool
  framesBeforeClose : Nat
deriving DecidableEq, Repr

/-- `main.cpp` lines 27-31: the body of one iteration of the main loop. -/
def frameLoopIteration : List Event :=
  [Event.glfwSwapBuffers, Event.glfwPollEvents]

/-- The main loop run for `n` iterations before the close signal is seen. -/
def frameLoop : Nat → List Event
  | 0 => []
  | n + 1 => frameLoopIteration ++ frameLoop n

/-- `main.cpp`, `main`: exit code and call trace under world `w`. -/
def mainRun (w : World) : Int × List Event :=
  if !w.glfwInitOk then
    (-1, [Event.glfwInitCall false])
  else
    let t0 := [Event.glfwInitCall true,
               Event.glfwCreateWindow 800 600 "Empty Window" w.windowOk]
    if !w.windowOk then
      (-1, t0 ++ [Event.glfwTerminate])
    else
      let t1 := t0 ++ [Event.glfwMakeContextCurrent, Event.glewInitCall w.glewOk]
      if !w.glewOk then
        (-1, t1 ++ [Event.glfwTerminate])
      else
        (0, t1 ++ frameLoop w.framesBeforeClose ++ [Event.glfwTerminate])

/-! Classifying predicates on events, used to count and filter traces. -/

/-- Is the event a `glDrawArrays` call? -/
def isDrawArrays : Event → Bool
  | Event.drawArrays _ _ _ => true
  | _ => false

/-- Is the event a `glUseProgram` call? -/
def isUseProgram : Event → Bool
  | Event.useProgram _ => true
  | _ => false

/-- Is the event a `glCreateProgram` call? -/
def isCreateProgram : Event → Bool
  | Event.createProgram _ => true
  | _ => false

/-- Is the event a `glGenVertexArrays` call? -/
def isGenVertexArrays : Event → Bool
  | Event.genVertexArrays _ => true
  | _ => false

/-- Is the event a printed diagnostic? -/
def isPrintDiag : Event → Bool
  | Event.printDiag _ _ => true
  | _ => false

/-- Is the event a diagnostic printed to stream `s`? -/
def printsTo (s : OutStream) : Event → Bool
  | Event.printDiag s' _ => s' == s
  | _ => false

/-- Is the event a `glBufferData` upload? -/
def isBufferData : Event → Bool
  | Event.bufferData _ _ => true
  | _ => false

/-- Is the event a `glVertexAttribPointer` call? -/
def isVertexAttribPointer : Event → Bool
  | Event.vertexAttribPointer _ _ _ _ _ _ => true
  | _ => false

/-- Is the event a `glDeleteShader` call? -/
def isDeleteShader : Event → Bool
  | Event.deleteShader _ => true
  | _ => false

/-- Is the event a `glfwInit` call? -/
def isGlfwInitCall : Event → Bool
  | Event.glfwInitCall _ => true
  | _ => false

/-- Is the event a `glfwCreateWindow` call? -/
def isGlfwCreateWindow : Event → Bool
  | Event.glfwCreateWindow _ _ _ _ => true
  | _ => false

/-- Is the event a `glewInit` call? -/
def isGlewInitCall : Event → Bool
  | Event.glewInitCall _ => true
  | _ => false

/-- Is the event one of the pipeline steps compile / attach / link / use? -/
def isPipelineStep : Event → Bool
  | Event.compileShader _ => true
  | Event.attachShader _ _ => true
  | Event.linkProgram _ => true
  | Event.useProgram _ => true
  | _ => false

/-- Is the event one of the windowing / loader calls issued by `main`? -/
def isWindowingCall : Event → Bool
  | Event.glfwInitCall _ => true
  | Event.glfwCreateWindow _ _ _ _ => true
  | Event.glfwMakeContextCurrent => true
  | Event.glewInitCall _ => true
  | Event.glfwSwapBuffers => true
  | Event.glfwPollEvents => true
  | Event.glfwTerminate => true
  | _ => false

/-- The diagnostic texts a setup run prints, in order. -/
def diagTexts (e : DriverEnv) : List String :=
  (renderTriangleSetup e).1.filterMap fun ev =>
    match ev with
    | Event.printDiag _ t => some t
    | _ => none

/-! Helper lemmas about the frame loop and the `main` trace. -/

lemma frameLoop_countP (p : Event → Bool) (n : Nat) :
    (frameLoop n).countP p = n * frameLoopIteration.countP p := by
  induction n with
  | zero => simp [frameLoop]
  | succ k ih =>
    simp only [frameLoop, List.countP_append, ih, Nat.succ_mul]
    omega

lemma mem_frameLoop (n : Nat) (ev : Event) (h : ev ∈ frameLoop n) :
    ev ∈ frameLoopIteration := by
  induction n with
  | zero => simp [frameLoop] at h
  | succ k ih =>
    rw [frameLoop, List.mem_append] at h
    exact h.elim id ih

lemma frameLoop_all (p : Event → Bool) (h : frameLoopIteration.all p = true)
    (n : Nat) : (frameLoop n).all p = true := by
  induction n with
  | zero => rfl
  | succ k ih => simp [frameLoop, List.all_append, h, ih]

lemma mainRun_all_windowing (w : World) :
    ((mainRun w).2.all isWindowingCall) = true := by
  obtain ⟨gi, wo, ge, n⟩ := w
  have hfl := frameLoop_all isWindowingCall (by rfl) n
  cases gi <;> cases wo <;> cases ge <;>
    simp [mainRun, List.all_append, hfl, isWindowingCall]

lemma mainRun_countP_zero (p : Event → Bool)
    (hp : ∀ ev, isWindowingCall ev = true → p ev = false) (w : World) :
    (mainRun w).2.countP p = 0 := by
  rw [List.countP_eq_zero]
  intro a ha
  simp [hp a (List.all_eq_true.mp (mainRun_all_windowing w) a ha)]

lemma setup_countP_pieces (e : DriverEnv) (p : Event → Bool) :
    (renderTriangleSetup e).1.countP p =
      (setupVertexPart e).countP p + (setupFragmentPart e).countP p +
      (setupLinkPart e).countP p + setupTailPart.countP p := by
  simp [renderTriangleSetup, List.countP_append]
  omega

/-- C1 counterexample: in the run where all setup succeeds and the frame
loop performs one iteration before the close signal, that iteration is just
`glfwSwapBuffers; glfwPollEvents` — the whole trace contains no draw call
and no program activation, so the iteration does not issue a draw call. -/
theorem C1_counterexample :
    frameLoop 1 = [Event.glfwSwapBuffers, Event.glfwPollEvents] ∧
    (mainRun ⟨true, true, true, 1⟩).2.countP isDrawArrays = 0 ∧
    (mainRun ⟨true, true, true, 1⟩).2.countP isUseProgram = 0 := by
  decide

/-- C1 (amended): every iteration of the frame loop only presents the frame
and polls events; no run of `main` ever issues a draw call or activates a
program.  The activate-program / bind-descriptor / single 3-vertex triangle
draw sequence exists only in `renderTriangle`, which `main` never invokes. -/
theorem C1_frame_loop_never_draws (w : World) (g : Globals) :
    frameLoopIteration = [Event.glfwSwapBuffers, Event.glfwPollEvents] ∧
    (mainRun w).2.countP isDrawArrays = 0 ∧
    (mainRun w).2.countP isUseProgram = 0 ∧
    renderTriangle g = [Event.useProgram g.shaderProgram,
      Event.bindVertexArray g.VAO, Event.drawArrays DrawMode.triangles 0 3] ∧
    (renderTriangle g).countP isDrawArrays = 1 := by
  refine ⟨rfl, ?_, ?_, rfl, ?_⟩
  · exact mainRun_countP_zero _ (by intro ev h; cases ev <;> simp_all [isDrawArrays, isWindowingCall]) w
  · exact mainRun_countP_zero _ (by intro ev h; cases ev <;> simp_all [isUseProgram, isWindowingCall]) w
  · simp [renderTriangle, List.countP_cons, isDrawArrays]

/-- C2 counterexample: the run with successful windowing setup and one loop
iteration reaches the frame loop, yet its trace contains zero
`glCreateProgram` and zero `glGenVertexArrays` calls — no ShaderProgram and
no GeometryDescriptor is ever created, contradicting "exactly one". -/
theorem C2_counterexample :
    (mainRun ⟨true, true, true, 1⟩).2.countP isCreateProgram = 0 ∧
    (mainRun ⟨true, true, true, 1⟩).2.countP isGenVertexArrays = 0 := by
  decide

/-- C2 (amended): `main` never invokes the one-time setup: in every run it
creates zero shader programs and zero vertex-array objects and issues no
draw call at all; `renderTriangleSetup` itself, when invoked, creates
exactly one shader program and exactly one vertex-array object and stores
their handles in the globals. -/
theorem C2_no_setup_in_main (w : World) (e : DriverEnv) :
    (mainRun w).2.countP isCreateProgram = 0 ∧
    (mainRun w).2.countP isGenVertexArrays = 0 ∧
    (mainRun w).2.countP isDrawArrays = 0 ∧
    (renderTriangleSetup e).1.countP isCreateProgram = 1 ∧
    (renderTriangleSetup e).1.countP isGenVertexArrays = 1 ∧
    (renderTriangleSetup e).2 = ⟨programId, vaoId⟩ := by
  refine ⟨?_, ?_, ?_, ?_, ?_, rfl⟩
  · exact mainRun_countP_zero _ (by intro ev h; cases ev <;> simp_all [isCreateProgram, isWindowingCall]) w
  · exact mainRun_countP_zero _ (by intro ev h; cases ev <;> simp_all [isGenVertexArrays, isWindowingCall]) w
  · exact mainRun_countP_zero _ (by intro ev h; cases ev <;> simp_all [isDrawArrays, isWindowingCall]) w
  · obtain ⟨vo, fo, lo, lv, lf, lp⟩ := e
    cases vo <;> cases fo <;> cases lo <;>
      simp [setup_countP_pieces, setupVertexPart, setupFragmentPart,
        setupLinkPart, setupTailPart, List.countP_cons, List.countP_append,
        isCreateProgram]
  · obtain ⟨vo, fo, lo, lv, lf, lp⟩ := e
    cases vo <;> cases fo <;> cases lo <;>
      simp [setup_countP_pieces, setupVertexPart, setupFragmentPart,
        setupLinkPart, setupTailPart, List.countP_cons, List.countP_append,
        isGenVertexArrays]

lemma getLast?_append_singleton (l : List Event) (a : Event) :
    (l ++ [a]).getLast? = some a := by
  rw [List.getLast?_append_of_ne_nil l (by simp)]
  rfl

/-- C3: the exit code is 0 exactly when all three setup steps succeed (so
the frame loop is reached and exits via the close signal), and -1 on any
setup failure; each init call is issued at most once (no retry), and every
run that got past `glfwInit` ends with the `glfwTerminate` release — a
failing run performs nothing after it. -/
theorem C3_exit_codes (w : World) :
    ((mainRun w).1 = 0 ↔
      (w.glfwInitOk = true ∧ w.windowOk = true ∧ w.glewOk = true)) ∧
    ((mainRun w).1 = 0 ∨ (mainRun w).1 = -1) ∧
    (mainRun w).2.countP isGlfwInitCall ≤ 1 ∧
    (mainRun w).2.countP isGlfwCreateWindow ≤ 1 ∧
    (mainRun w).2.countP isGlewInitCall ≤ 1 ∧
    (mainRun w).2.getLast? =
      some (if w.glfwInitOk then Event.glfwTerminate
            else Event.glfwInitCall false) := by
  obtain ⟨gi, wo, ge, n⟩ := w
  have h1 := frameLoop_countP isGlfwInitCall n
  have h2 := frameLoop_countP isGlfwCreateWindow n
  have h3 := frameLoop_countP isGlewInitCall n
  have hl : ∀ (x : Event) (l : List Event),
      (x :: (l ++ [Event.glfwTerminate])).getLast? =
        some Event.glfwTerminate := by
    intro x l
    exact getLast?_append_singleton (x :: l) _
  cases gi <;> cases wo <;> cases ge <;>
    simp [mainRun, List.countP_append, List.countP_cons, h1, h2, h3,
      isGlfwInitCall, isGlfwCreateWindow, isGlewInitCall, frameLoopIteration,
      getLast?_append_singleton, hl]

/-- The all-success driver environment (valid shader sources, link ok). -/
def okEnv : DriverEnv := ⟨true, true, true, "", "", ""⟩

/-- C4 counterexample: with a failing vertex compile, the one diagnostic
block is written to `std::cout` — the standard output stream — and nothing
is written to the standard error stream, contradicting the claim. -/
theorem C4_counterexample :
    (renderTriangleSetup ⟨false, true, true, "0:1: error", "", ""⟩).1.countP
        (printsTo OutStream.stderr) = 0 ∧
    (renderTriangleSetup ⟨false, true, true, "0:1: error", "", ""⟩).1.countP
        (printsTo OutStream.stdout) = 1 ∧
    OutStream.stdout ≠ OutStream.stderr := by
  decide

/-- C4 (amended): every compile / link diagnostic block is emitted to the
standard output stream (`std::cout`); none is emitted to the standard error
stream. -/
theorem C4_diagnostics_on_stdout (e : DriverEnv) :
    (renderTriangleSetup e).1.countP (printsTo OutStream.stderr) = 0 ∧
    (renderTriangleSetup e).1.countP (printsTo OutStream.stdout) =
      (renderTriangleSetup e).1.countP isPrintDiag := by
  obtain ⟨vo, fo, lo, lv, lf, lp⟩ := e
  cases vo <;> cases fo <;> cases lo <;>
    simp [setup_countP_pieces, setupVertexPart, setupFragmentPart,
      setupLinkPart, setupTailPart, List.countP_append, List.countP_cons,
      printsTo, isPrintDiag]

/-- C5: compile / link failures are reported but non-fatal: whatever the
driver outcomes, stripping the printed diagnostics leaves exactly the
all-success call sequence (no early return, no rollback, no retry), and the
pipeline steps performed are always the full compile-compile-attach-attach-
link-use sequence on the same handles. -/
theorem C5_failures_nonfatal (e : DriverEnv) :
    (renderTriangleSetup e).1.filter (fun ev => !isPrintDiag ev) =
      (renderTriangleSetup okEnv).1 ∧
    (renderTriangleSetup e).1.filter isPipelineStep =
      [Event.compileShader vertexShaderId,
       Event.compileShader fragmentShaderId,
       Event.attachShader programId vertexShaderId,
       Event.attachShader programId fragmentShaderId,
       Event.linkProgram programId,
       Event.useProgram programId] := by
  obtain ⟨vo, fo, lo, lv, lf, lp⟩ := e
  cases vo <;> cases fo <;> cases lo <;>
    simp [renderTriangleSetup, setupVertexPart, setupFragmentPart,
      setupLinkPart, setupTailPart, okEnv, List.filter_append,
      List.filter_cons, isPrintDiag, isPipelineStep]

lemma diagTexts_eq (e : DriverEnv) :
    diagTexts e =
      (if e.vertexCompileOk then [] else [vertexDiag e.vertexLog]) ++
      (if e.fragmentCompileOk then [] else [fragmentDiag e.fragmentLog]) ++
      (if e.linkOk then [] else [programDiag e.programLog]) := by
  obtain ⟨vo, fo, lo, lv, lf, lp⟩ := e
  cases vo <;> cases fo <;> cases lo <;>
    simp [diagTexts, renderTriangleSetup, setupVertexPart, setupFragmentPart,
      setupLinkPart, setupTailPart, List.filterMap_append, List.filterMap_cons]

lemma vertexHeader_split :
    "ERROR::SHADER::VERTEX::COMPILATION_FAILED\n".data =
      "ERROR::SHADER::".data ++ "VERTEX".data ++ "::".data ++
      "COMPILATION_FAILED".data ++ "\n".data := by
  decide

lemma fragmentHeader_split :
    "ERROR::SHADER::FRAGMENT::COMPILATION_FAILED\n".data =
      "ERROR::SHADER::".data ++ "FRAGMENT".data ++ "::".data ++
      "COMPILATION_FAILED".data ++ "\n".data := by
  decide

lemma programHeader_split :
    "ERROR::SHADER::PROGRAM::LINKING_FAILED\n".data =
      "ERROR::SHADER::".data ++ "PROGRAM".data ++ "::".data ++
      "LINKING_FAILED".data ++ "\n".data := by
  decide

lemma vertexDiag_data (log : String) :
    (vertexDiag log).data =
      "ERROR::SHADER::".data ++ "VERTEX".data ++ "::".data ++
      "COMPILATION_FAILED".data ++ "\n".data ++
      (getInfoLog 512 log).data ++ "\n".data := by
  simp [vertexDiag, vertexHeader_split]

lemma fragmentDiag_data (log : String) :
    (fragmentDiag log).data =
      "ERROR::SHADER::".data ++ "FRAGMENT".data ++ "::".data ++
      "COMPILATION_FAILED".data ++ "\n".data ++
      (getInfoLog 512 log).data ++ "\n".data := by
  simp [fragmentDiag, fragmentHeader_split]

lemma programDiag_data (log : String) :
    (programDiag log).data =
      "ERROR::SHADER::".data ++ "PROGRAM".data ++ "::".data ++
      "LINKING_FAILED".data ++ "\n".data ++
      (getInfoLog 512 log).data ++ "\n".data := by
  simp [programDiag, programHeader_split]

/-- C6: each compile / link failure produces exactly one diagnostic block of
the form `ERROR::SHADER::<STAGE>::<REASON>` followed by a newline and the
(captured) driver log; a vertex compile failure's block contains the
substrings `VERTEX` and `COMPILATION_FAILED`; and with all driver checks
succeeding no diagnostic text is emitted at all. -/
theorem C6_diagnostic_blocks (e : DriverEnv) (lv lf lp : String) :
    (diagTexts e).length =
      ((if e.vertexCompileOk then 0 else 1) +
       (if e.fragmentCompileOk then 0 else 1) +
       (if e.linkOk then 0 else 1)) ∧
    (∀ t ∈ diagTexts e, ∃ stage reason driverLog,
        ((stage, reason) = ("VERTEX", "COMPILATION_FAILED") ∨
         (stage, reason) = ("FRAGMENT", "COMPILATION_FAILED") ∨
         (stage, reason) = ("PROGRAM", "LINKING_FAILED")) ∧
        (driverLog = e.vertexLog ∨ driverLog = e.fragmentLog ∨
         driverLog = e.programLog) ∧
        t.data = "ERROR::SHADER::".data ++ stage.data ++ "::".data ++
          reason.data ++ "\n".data ++ (getInfoLog 512 driverLog).data ++
          "\n".data) ∧
    (e.vertexCompileOk = false →
        vertexDiag e.vertexLog ∈ diagTexts e ∧
        (∃ p q, (vertexDiag e.vertexLog).data = p ++ "VERTEX".data ++ q) ∧
        (∃ p q, (vertexDiag e.vertexLog).data =
          p ++ "COMPILATION_FAILED".data ++ q)) ∧
    diagTexts ⟨true, true, true, lv, lf, lp⟩ = [] ∧
    (renderTriangleSetup ⟨true, true, true, lv, lf, lp⟩).1.countP
      isPrintDiag = 0 := by
  refine ⟨?_, ?_, ?_, by simp [diagTexts_eq], ?_⟩
  · obtain ⟨vo, fo, lo, l₁, l₂, l₃⟩ := e
    cases vo <;> cases fo <;> cases lo <;> simp [diagTexts_eq]
  · intro t ht
    rw [diagTexts_eq] at ht
    simp only [List.mem_append] at ht
    rcases ht with (ht | ht) | ht
    · simp at ht
      exact ⟨"VERTEX", "COMPILATION_FAILED", e.vertexLog, Or.inl rfl,
        Or.inl rfl, ht.2 ▸ vertexDiag_data e.vertexLog⟩
    · simp at ht
      exact ⟨"FRAGMENT", "COMPILATION_FAILED", e.fragmentLog,
        Or.inr (Or.inl rfl), Or.inr (Or.inl rfl),
        ht.2 ▸ fragmentDiag_data e.fragmentLog⟩
    · simp at ht
      exact ⟨"PROGRAM", "LINKING_FAILED", e.programLog,
        Or.inr (Or.inr rfl), Or.inr (Or.inr rfl),
        ht.2 ▸ programDiag_data e.programLog⟩
  · intro hv
    refine ⟨by simp [diagTexts_eq, hv], ⟨"ERROR::SHADER::".data,
      "::".data ++ "COMPILATION_FAILED".data ++ "\n".data ++
        (getInfoLog 512 e.vertexLog).data ++ "\n".data, ?_⟩,
      ⟨"ERROR::SHADER::".data ++ "VERTEX".data ++ "::".data,
      "\n".data ++ (getInfoLog 512 e.vertexLog).data ++ "\n".data, ?_⟩⟩
    · simp [vertexDiag_data]
    · simp [vertexDiag_data]
  · obtain ⟨vo, fo, lo, l₁, l₂, l₃⟩ := e
    simp [setup_countP_pieces, setupVertexPart, setupFragmentPart,
      setupLinkPart, setupTailPart, List.countP_append, List.countP_cons,
      isPrintDiag]

/-- A sample one-character driver log used by the C6 witness. -/
def xLog : String := "x"

/-- A sample three-character driver log used by the C7 witness. -/
def abcLog : String := "abc"

/-- Witness for C6: at a concrete failing vertex compile with driver log
`xLog`, the diagnostic block is emitted, contains `VERTEX`, and matches the
`ERROR::SHADER::<STAGE>::<REASON>` format. -/
theorem C6_witness :
    vertexDiag xLog ∈ diagTexts ⟨false, true, true, xLog, "", ""⟩ ∧
    (∃ p q, (vertexDiag xLog).data = p ++ "VERTEX".data ++ q) ∧
    (∃ stage reason driverLog,
        ((stage, reason) = ("VERTEX", "COMPILATION_FAILED") ∨
         (stage, reason) = ("FRAGMENT", "COMPILATION_FAILED") ∨
         (stage, reason) = ("PROGRAM", "LINKING_FAILED")) ∧
        (driverLog = xLog ∨ driverLog = "" ∨ driverLog = "") ∧
        (vertexDiag xLog).data = "ERROR::SHADER::".data ++ stage.data ++
          "::".data ++ reason.data ++ "\n".data ++
          (getInfoLog 512 driverLog).data ++ "\n".data) := by
  have h := C6_diagnostic_blocks ⟨false, true, true, xLog, "", ""⟩ "" "" ""
  have hmem := (h.2.2.1 rfl).1
  exact ⟨hmem, (h.2.2.1 rfl).2.1, h.2.1 (vertexDiag xLog) hmem⟩

lemma printDiag_mem_setup (e : DriverEnv) (s : OutStream) (t : String)
    (h : Event.printDiag s t ∈ (renderTriangleSetup e).1) :
    t = vertexDiag e.vertexLog ∨ t = fragmentDiag e.fragmentLog ∨
      t = programDiag e.programLog := by
  obtain ⟨vo, fo, lo, l₁, l₂, l₃⟩ := e
  cases vo <;> cases fo <;> cases lo <;>
    simp [renderTriangleSetup, setupVertexPart, setupFragmentPart,
      setupLinkPart, setupTailPart] at h <;>
    tauto

/-- C7: every printed diagnostic is a fixed failure header followed by the
capture of the corresponding actual driver log through the 512-byte buffer
— the header / driver-log pair is one of the three pairs tied to this run's
environment.  The captured log's character count never exceeds 511, the
bytes written into the `char infoLog[512]` buffer (characters plus null
terminator) never exceed the buffer's 512 bytes, and a longer driver log is
truncated: the captured length is the minimum of the driver log's length
and 511. -/
theorem C7_log_truncated (e : DriverEnv) (s : OutStream) (t : String)
    (h : Event.printDiag s t ∈ (renderTriangleSetup e).1) :
    ∃ header driverLog,
      (header, driverLog) ∈
        [("ERROR::SHADER::VERTEX::COMPILATION_FAILED\n", e.vertexLog),
         ("ERROR::SHADER::FRAGMENT::COMPILATION_FAILED\n", e.fragmentLog),
         ("ERROR::SHADER::PROGRAM::LINKING_FAILED\n", e.programLog)] ∧
      t = header ++ getInfoLog 512 driverLog ++ "\n" ∧
      (getInfoLog 512 driverLog).data.length ≤ 511 ∧
      bytesWritten 512 driverLog ≤ 512 ∧
      (getInfoLog 512 driverLog).data.length =
        min driverLog.data.length 511 := by
  have key : ∀ log : String,
      (getInfoLog 512 log).data.length = min log.data.length 511 := by
    intro log
    simp [getInfoLog, List.length_take, Nat.min_comm]
  have bound : ∀ log : String, (getInfoLog 512 log).data.length ≤ 511 := by
    intro log
    rw [key]
    omega
  have bw : ∀ log : String, bytesWritten 512 log ≤ 512 := by
    intro log
    have := bound log
    unfold bytesWritten
    omega
  rcases printDiag_mem_setup e s t h with ht | ht | ht
  · exact ⟨"ERROR::SHADER::VERTEX::COMPILATION_FAILED\n", e.vertexLog,
      by simp, ht, bound _, bw _, key _⟩
  · exact ⟨"ERROR::SHADER::FRAGMENT::COMPILATION_FAILED\n", e.fragmentLog,
      by simp, ht, bound _, bw _, key _⟩
  · exact ⟨"ERROR::SHADER::PROGRAM::LINKING_FAILED\n", e.programLog,
      by simp, ht, bound _, bw _, key _⟩

/-- Witness for C7: at a concrete failing vertex compile with driver log
`abcLog`, the printed diagnostic carries the truncated capture of one of
that run's three driver logs. -/
theorem C7_witness :
    ∃ header driverLog,
      (header, driverLog) ∈
        [("ERROR::SHADER::VERTEX::COMPILATION_FAILED\n", abcLog),
         ("ERROR::SHADER::FRAGMENT::COMPILATION_FAILED\n", ""),
         ("ERROR::SHADER::PROGRAM::LINKING_FAILED\n", "")] ∧
      vertexDiag abcLog = header ++ getInfoLog 512 driverLog ++ "\n" ∧
      (getInfoLog 512 driverLog).data.length ≤ 511 ∧
      bytesWritten 512 driverLog ≤ 512 ∧
      (getInfoLog 512 driverLog).data.length =
        min driverLog.data.length 511 :=
  C7_log_truncated ⟨false, true, true, abcLog, "", ""⟩ OutStream.stdout
    (vertexDiag abcLog) (by decide)

/-- C8: the uploaded geometry is the fixed 9-float array
`{(-0.5,-0.5,0), (0.5,-0.5,0), (0,0.5,0)}`, every component lies in
[-1, 1], every `glBufferData` upload the setup performs carries exactly
this array, and neither the per-frame draw nor `main` ever uploads (or
modifies) buffer data. -/
theorem C8_vertex_data (e : DriverEnv) (g : Globals) (w : World) :
    vertices = [-0.5, -0.5, 0, 0.5, -0.5, 0, 0, 0.5, 0] ∧
    vertices.length = 9 ∧
    (∀ x ∈ vertices, -1 ≤ x ∧ x ≤ 1) ∧
    (renderTriangleSetup e).1.filter isBufferData =
      [Event.bufferData GL_ARRAY_BUFFER vertices,
       Event.bufferData GL_ARRAY_BUFFER vertices] ∧
    (renderTriangle g).countP isBufferData = 0 ∧
    (mainRun w).2.countP isBufferData = 0 := by
  refine ⟨by norm_num [vertices], rfl, ?_, ?_, ?_, ?_⟩
  · intro x hx
    simp only [vertices, List.mem_cons, List.not_mem_nil, or_false] at hx
    rcases hx with rfl | rfl | rfl | rfl | rfl | rfl | rfl | rfl | rfl <;>
      norm_num
  · obtain ⟨vo, fo, lo, l₁, l₂, l₃⟩ := e
    cases vo <;> cases fo <;> cases lo <;>
      simp [renderTriangleSetup, setupVertexPart, setupFragmentPart,
        setupLinkPart, setupTailPart, List.filter_append, List.filter_cons,
        isBufferData]
  · simp [renderTriangle, List.countP_cons, isBufferData]
  · exact mainRun_countP_zero _
      (by intro ev h; cases ev <;> simp_all [isBufferData, isWindowingCall]) w

/-- Witness for C8: the component -0.5 of the vertex array lies in the
normalized-device-coordinate range. -/
theorem C8_witness : -1 ≤ (-0.5 : ℚ) ∧ (-0.5 : ℚ) ≤ 1 :=
  (C8_vertex_data okEnv initGlobals ⟨true, true, true, 0⟩).2.2.1 (-0.5)
    (by norm_num [vertices])

/-- C9: every vertex-attribute binding the setup establishes uses slot 0,
3 components of type `GL_FLOAT`, no normalization, stride `3*sizeof(float)`
(= 12, tight), offset 0; and `renderTriangle` issues exactly one draw call,
a triangle primitive with first index 0 and vertex count 3. -/
theorem C9_attribute_binding (e : DriverEnv) (g : Globals) :
    (renderTriangleSetup e).1.filter isVertexAttribPointer =
      [Event.vertexAttribPointer 0 3 GL_FLOAT false (3 * floatSize) 0,
       Event.vertexAttribPointer 0 3 GL_FLOAT false (3 * floatSize) 0] ∧
    3 * floatSize = 12 ∧
    (renderTriangle g).filter isDrawArrays =
      [Event.drawArrays DrawMode.triangles 0 3] ∧
    (renderTriangle g).countP isDrawArrays = 1 := by
  refine ⟨?_, rfl, ?_, ?_⟩
  · obtain ⟨vo, fo, lo, l₁, l₂, l₃⟩ := e
    cases vo <;> cases fo <;> cases lo <;>
      simp [renderTriangleSetup, setupVertexPart, setupFragmentPart,
        setupLinkPart, setupTailPart, List.filter_append, List.filter_cons,
        isVertexAttribPointer]
  · simp [renderTriangle, List.filter_cons, isDrawArrays]
  · simp [renderTriangle, List.countP_cons, isDrawArrays]

/-- C10: in every setup run — whatever the compile / link outcomes — the
trace ends with the fixed unconditional tail in which `glUseProgram` is
immediately followed by the deletion of both shader stage handles; exactly
two `glDeleteShader` calls occur, one per stage handle. -/
theorem C10_stages_deleted (e : DriverEnv) :
    (∃ pre, (renderTriangleSetup e).1 =
      pre ++ (Event.useProgram programId ::
        Event.deleteShader vertexShaderId ::
        Event.deleteShader fragmentShaderId ::
        setupTailPart.drop 3)) ∧
    (renderTriangleSetup e).1.countP isDeleteShader = 2 ∧
    (renderTriangleSetup e).1.filter isDeleteShader =
      [Event.deleteShader vertexShaderId,
       Event.deleteShader fragmentShaderId] := by
  refine ⟨⟨setupVertexPart e ++ setupFragmentPart e ++ setupLinkPart e, ?_⟩,
    ?_, ?_⟩
  · simp [renderTriangleSetup, setupTailPart, List.append_assoc]
  · obtain ⟨vo, fo, lo, l₁, l₂, l₃⟩ := e
    cases vo <;> cases fo <;> cases lo <;>
      simp [renderTriangleSetup, setupVertexPart, setupFragmentPart,
        setupLinkPart, setupTailPart, List.countP_append, List.countP_cons,
        isDeleteShader]
  · obtain ⟨vo, fo, lo, l₁, l₂, l₃⟩ := e
    cases vo <;> cases fo <;> cases lo <;>
      simp [renderTriangleSetup, setupVertexPart, setupFragmentPart,
        setupLinkPart, setupTailPart, List.filter_append, List.filter_cons,
        isDeleteShader]

end MaxAim
